import Mathlib

/-!
Shallow embedding of the AArch64 MMU driver
(`src/15_virtual_mem_part3_precomputed_tables/src/_arch/aarch64/memory/mmu.rs`).

Hardware registers are modelled as explicit state; register writes become
state updates; the privileged `AT S1E1R` instruction is modelled as a lookup
in the (externally built) translation tables held in the state.  Every
driver operation additionally returns the ordered list of hardware events it
performed, so that ordering and "no further action" properties can be stated.
-/

namespace MMUDriver

/-- Error type of `enable_mmu_and_caching`.  Modelled from the spec: the enum
itself lives in the generic `memory/mmu.rs` module which is not part of the
sources under study; the variants here are exactly those constructed by the
arch code: `AlreadyEnabled` and `Other(&'static str)`. -/
inductive MMUEnableError where
  | AlreadyEnabled : MMUEnableError
  | Other : String → MMUEnableError
deriving DecidableEq, Repr

/-- Error type of `try_virt_to_phys`.  Modelled from the spec: the enum lives
in the generic `memory/mmu.rs` module; the variants constructed by the arch
code are `MMUDisabled` and `Aborted`. -/
inductive TranslationError where
  | MMUDisabled : TranslationError
  | Aborted : TranslationError
deriving DecidableEq, Repr

/-- One hardware action performed by the driver (register read/write, barrier,
or the address-translation instruction), recorded in program order. -/
inductive HWEvent where
  | readSCTLR : HWEvent
  | readIDAA64MMFR0 : HWEvent
  | writeMAIR : HWEvent
  | writeTTBR0 : HWEvent
  | writeTCR : HWEvent
  | isb : HWEvent
  | modifySCTLR : HWEvent
  | atS1E1R : HWEvent
  | readPAR : HWEvent
deriving DecidableEq, Repr

/-- `Granule512MiB::SIZE` (`TranslationGranule<{ 512 * 1024 * 1024 }>`). -/
def Granule512MiB_SIZE : Nat := 512 * 1024 * 1024

/-- `Granule64KiB::SIZE` (`TranslationGranule<{ 64 * 1024 }>`). -/
def Granule64KiB_SIZE : Nat := 64 * 1024

namespace mair

/-- `mair::DEVICE`, the MAIR index used for device memory. -/
def DEVICE : Nat := 0

/-- `mair::NORMAL`, the MAIR index used for normal cacheable memory. -/
def NORMAL : Nat := 1

end mair

/-- `MAIR_EL1::Attr1_Normal_Outer::WriteBack_NonTransient_ReadWriteAlloc`:
attribute byte 1, outer nibble (bits 15:12), ARM encoding `0b1111`. -/
def MAIR_EL1_Attr1_Normal_Outer_WriteBack_NonTransient_ReadWriteAlloc : Nat :=
  0b1111 <<< 12

/-- `MAIR_EL1::Attr1_Normal_Inner::WriteBack_NonTransient_ReadWriteAlloc`:
attribute byte 1, inner nibble (bits 11:8), ARM encoding `0b1111`. -/
def MAIR_EL1_Attr1_Normal_Inner_WriteBack_NonTransient_ReadWriteAlloc : Nat :=
  0b1111 <<< 8

/-- `MAIR_EL1::Attr0_Device::nonGathering_nonReordering_EarlyWriteAck`:
attribute byte 0, device field (bits 3:2), ARM encoding `0b01`. -/
def MAIR_EL1_Attr0_Device_nonGathering_nonReordering_EarlyWriteAck : Nat :=
  0b01 <<< 2

/-- The `TCR_EL1` value written by `configure_translation_control`, kept as a
structured record of the named fields the code sets (field encodings are the
architecture-defined ones). -/
structure TCRFields where
  tbi0 : Nat
  ips : Nat
  tg0 : Nat
  sh0 : Nat
  orgn0 : Nat
  irgn0 : Nat
  epd0 : Nat
  a1 : Nat
  t0sz : Nat
  epd1 : Nat
deriving DecidableEq, Repr

/-- `TCR_EL1::TBI0::Used` (top byte used in address calculation). -/
def TCR_EL1_TBI0_Used : Nat := 0

/-- `TCR_EL1::IPS::Bits_40` (40-bit intermediate physical address size). -/
def TCR_EL1_IPS_Bits_40 : Nat := 0b010

/-- `TCR_EL1::TG0::KiB_64` (64 KiB granule for TTBR0). -/
def TCR_EL1_TG0_KiB_64 : Nat := 0b01

/-- `TCR_EL1::SH0::Inner` (inner shareable). -/
def TCR_EL1_SH0_Inner : Nat := 0b11

/-- `TCR_EL1::ORGN0::WriteBack_ReadAlloc_WriteAlloc_Cacheable`. -/
def TCR_EL1_ORGN0_WriteBack_ReadAlloc_WriteAlloc_Cacheable : Nat := 0b01

/-- `TCR_EL1::IRGN0::WriteBack_ReadAlloc_WriteAlloc_Cacheable`. -/
def TCR_EL1_IRGN0_WriteBack_ReadAlloc_WriteAlloc_Cacheable : Nat := 0b01

/-- `TCR_EL1::EPD0::EnableTTBR0Walks` (walks through TTBR0 enabled). -/
def TCR_EL1_EPD0_EnableTTBR0Walks : Nat := 0

/-- `TCR_EL1::A1::TTBR0` (TTBR0 defines the ASID). -/
def TCR_EL1_A1_TTBR0 : Nat := 0

/-- `TCR_EL1::EPD1::DisableTTBR1Walks` (walks through TTBR1 disabled). -/
def TCR_EL1_EPD1_DisableTTBR1Walks : Nat := 1

/-- The per-core hardware state touched by the driver: the SCTLR_EL1 bits it
reads and modifies, the configuration registers it writes, the feature bit of
`ID_AA64MMFR0_EL1` it queries, and — modelled from the spec — the externally
built translation tables (a 64 KiB-granule map from virtual page number to
physical page number) that the hardware walks on an `AT S1E1R` instruction. -/
structure HWState where
  sctlr_m : Bool
  sctlr_c : Bool
  sctlr_i : Bool
  mair_el1 : Nat
  ttbr0_el1 : Nat
  tcr_el1 : TCRFields
  tgran64_supported : Bool
  tables : List (Nat × Nat)
deriving DecidableEq, Repr

/-- `is_enabled`: `SCTLR_EL1.matches_all(SCTLR_EL1::M::Enable)`. -/
def is_enabled (s : HWState) : Bool :=
  s.sctlr_m

/-- `set_up_mair`: the single `MAIR_EL1.write` combining the three field
values (attribute 1 = cacheable normal DRAM, attribute 0 = device). -/
def set_up_mair (s : HWState) : HWState :=
  { s with
    mair_el1 :=
      MAIR_EL1_Attr1_Normal_Outer_WriteBack_NonTransient_ReadWriteAlloc |||
      MAIR_EL1_Attr1_Normal_Inner_WriteBack_NonTransient_ReadWriteAlloc |||
      MAIR_EL1_Attr0_Device_nonGathering_nonReordering_EarlyWriteAck }

/-- Modelled from the spec: `KernelVirtAddrSpace::SIZE_SHIFT`, the number of
bits of the configured address-space size (a power of two); for an
address-space size of `2^30` bytes the shift is `30`.  The constant lives in
the BSP memory module, outside the sources under study. -/
def addressSpaceSizeShift (asSize : Nat) : Nat :=
  Nat.log2 asSize

/-- `configure_translation_control`: computes
`t0sz = (64 - KernelVirtAddrSpace::SIZE_SHIFT) as u64` and performs the single
`TCR_EL1.write` of the listed fields.  `sizeShift` is the externally
configured `SIZE_SHIFT` constant. -/
def configure_translation_control (sizeShift : Nat) (s : HWState) : HWState :=
  let t0sz := 64 - sizeShift
  { s with
    tcr_el1 :=
      { tbi0 := TCR_EL1_TBI0_Used
        ips := TCR_EL1_IPS_Bits_40
        tg0 := TCR_EL1_TG0_KiB_64
        sh0 := TCR_EL1_SH0_Inner
        orgn0 := TCR_EL1_ORGN0_WriteBack_ReadAlloc_WriteAlloc_Cacheable
        irgn0 := TCR_EL1_IRGN0_WriteBack_ReadAlloc_WriteAlloc_Cacheable
        epd0 := TCR_EL1_EPD0_EnableTTBR0Walks
        a1 := TCR_EL1_A1_TTBR0
        t0sz := t0sz
        epd1 := TCR_EL1_EPD1_DisableTTBR1Walks } }

/-- `AddressSpace::<AS_SIZE>::arch_address_space_size_sanity_checks` as a
decidable predicate: both `assert!`s hold. -/
def arch_address_space_size_sanity_checks (AS_SIZE : Nat) : Bool :=
  (AS_SIZE % Granule512MiB_SIZE == 0) && (AS_SIZE ≤ 1 <<< 48)

/-- `enable_mmu_and_caching`: returns the result, the post-state, and the
ordered list of hardware events performed. -/
def enable_mmu_and_caching (sizeShift : Nat) (s : HWState)
    (physTablesBaseAddr : Nat) :
    Except MMUEnableError Unit × HWState × List HWEvent :=
  if is_enabled s then
    (Except.error MMUEnableError.AlreadyEnabled, s, [HWEvent.readSCTLR])
  else if !s.tgran64_supported then
    (Except.error (MMUEnableError.Other "Translation granule not supported in HW"),
      s, [HWEvent.readSCTLR, HWEvent.readIDAA64MMFR0])
  else
    let s1 := set_up_mair s
    let s2 := { s1 with ttbr0_el1 := physTablesBaseAddr % 2 ^ 64 }
    let s3 := configure_translation_control sizeShift s2
    let s4 := { s3 with sctlr_m := true, sctlr_c := true, sctlr_i := true }
    (Except.ok (), s4,
      [HWEvent.readSCTLR, HWEvent.readIDAA64MMFR0, HWEvent.writeMAIR,
        HWEvent.writeTTBR0, HWEvent.writeTCR, HWEvent.isb, HWEvent.modifySCTLR,
        HWEvent.isb])

/-- Look up the physical page number mapped to a virtual page number in the
modelled translation tables. -/
def lookupPage (tables : List (Nat × Nat)) (vpage : Nat) : Option Nat :=
  (tables.find? (fun e => e.fst == vpage)).map (fun e => e.snd)

/-- Modelled from the spec: the `AT S1E1R` instruction followed by the
`PAR_EL1` read.  The hardware walks the externally built 64 KiB-granule
tables; on success `PAR_EL1.PA` holds bits 47:12 of the translated physical
address, on failure (`PAR_EL1::F::TranslationAborted`) the result is `none`. -/
def parOfAT (tables : List (Nat × Nat)) (addr : Nat) : Option Nat :=
  (lookupPage tables (addr / Granule64KiB_SIZE)).map
    (fun ppage => (ppage * Granule64KiB_SIZE + addr % Granule64KiB_SIZE) / 2 ^ 12)

/-- `try_virt_to_phys`: the MMU-disabled gate, the `AT S1E1R` instruction, the
`PAR_EL1` abort check, and the reconstruction
`(par_el1.read(PAR_EL1::PA) << 12) | (addr & 0xFFF)`. -/
def try_virt_to_phys (s : HWState) (virt : Nat) :
    Except TranslationError Nat × List HWEvent :=
  if !is_enabled s then
    (Except.error TranslationError.MMUDisabled, [HWEvent.readSCTLR])
  else
    let addr := virt % 2 ^ 64
    match parOfAT s.tables addr with
    | none =>
        (Except.error TranslationError.Aborted,
          [HWEvent.readSCTLR, HWEvent.atS1E1R, HWEvent.readPAR])
    | some pa =>
        (Except.ok ((pa <<< 12) ||| (addr &&& 0xFFF)),
          [HWEvent.readSCTLR, HWEvent.atS1E1R, HWEvent.readPAR])

/-! ### Sample hardware states used to instantiate the theorems -/

/-- A zeroed TCR value, standing for the reset state of the register. -/
def resetTCR : TCRFields :=
  ⟨0, 0, 0, 0, 0, 0, 0, 0, 0, 0⟩

/-- A sample pre-enable state: MMU off, 64 KiB granule supported, tables
mapping virtual page 1 to physical page 2. -/
def sampleDisabled : HWState :=
  { sctlr_m := false, sctlr_c := false, sctlr_i := false, mair_el1 := 0,
    ttbr0_el1 := 0, tcr_el1 := resetTCR, tgran64_supported := true,
    tables := [(1, 2)] }

/-- The sample state with the MMU already enabled. -/
def sampleEnabled : HWState :=
  { sampleDisabled with sctlr_m := true }

/-- The sample state on hardware without 64 KiB granule support. -/
def sampleNoGranule : HWState :=
  { sampleDisabled with tgran64_supported := false }

/-! ### Helper lemmas -/

/-- The physical-address reconstruction `(pa << 12) | (x & 0xFFF)` equals
`2 ^ 12 * pa + x % 2 ^ 12`. -/
theorem shiftLeft_or_low (a x : Nat) :
    (a <<< 12) ||| (x &&& 0xFFF) = 2 ^ 12 * a + x % 2 ^ 12 := by
  have h1 : (0xFFF : Nat) = 2 ^ 12 - 1 := by norm_num
  have h2 : x % 2 ^ 12 < 2 ^ 12 := Nat.mod_lt x (by norm_num)
  rw [Nat.shiftLeft_eq, h1, Nat.and_pow_two_sub_one_eq_mod, Nat.mul_comm a,
    ← Nat.mul_add_lt_is_or h2 a]

/-! ### Claim theorems -/

/-- Claim C1: a successful `enable_mmu_and_caching` performs its hardware
actions in exactly this order: read SCTLR (enablement check), read
ID_AA64MMFR0 (granule support), write MAIR, write TTBR0, write TCR, ISB,
modify SCTLR (M, C, I in a single modify), ISB — so the MAIR programming
precedes both the base-address write and the translation-control write. -/
theorem enable_success_event_order (sizeShift : Nat) (s : HWState) (base : Nat)
    (h : (enable_mmu_and_caching sizeShift s base).1 = Except.ok ()) :
    (enable_mmu_and_caching sizeShift s base).2.2 =
      [HWEvent.readSCTLR, HWEvent.readIDAA64MMFR0, HWEvent.writeMAIR,
        HWEvent.writeTTBR0, HWEvent.writeTCR, HWEvent.isb, HWEvent.modifySCTLR,
        HWEvent.isb] := by
  by_cases he : is_enabled s = true
  · simp [enable_mmu_and_caching, he] at h
  · by_cases hg : s.tgran64_supported = true
    · simp [enable_mmu_and_caching, he, hg]
    · simp [enable_mmu_and_caching, he, hg] at h

/-- Witness for C1 on a concrete pre-enable state. -/
theorem enable_success_event_order_witness :
    (enable_mmu_and_caching 30 sampleDisabled 65536).1 = Except.ok () ∧
    (enable_mmu_and_caching 30 sampleDisabled 65536).2.2 =
      [HWEvent.readSCTLR, HWEvent.readIDAA64MMFR0, HWEvent.writeMAIR,
        HWEvent.writeTTBR0, HWEvent.writeTCR, HWEvent.isb, HWEvent.modifySCTLR,
        HWEvent.isb] :=
  ⟨rfl, enable_success_event_order 30 sampleDisabled 65536 rfl⟩

/-- Claim C2: calling `enable_mmu_and_caching` while already enabled returns
`AlreadyEnabled` after only the SCTLR read, leaves the hardware state
unchanged, and repeating the call yields the identical result. -/
theorem enable_already_enabled (sizeShift : Nat) (s : HWState) (base : Nat)
    (h : is_enabled s = true) :
    enable_mmu_and_caching sizeShift s base =
      (Except.error MMUEnableError.AlreadyEnabled, s, [HWEvent.readSCTLR]) ∧
    enable_mmu_and_caching sizeShift
        (enable_mmu_and_caching sizeShift s base).2.1 base =
      enable_mmu_and_caching sizeShift s base := by
  constructor <;> simp [enable_mmu_and_caching, h]

/-- Witness for C2 on a concrete already-enabled state. -/
theorem enable_already_enabled_witness :
    enable_mmu_and_caching 30 sampleEnabled 65536 =
      (Except.error MMUEnableError.AlreadyEnabled, sampleEnabled,
        [HWEvent.readSCTLR]) ∧
    enable_mmu_and_caching 30
        (enable_mmu_and_caching 30 sampleEnabled 65536).2.1 65536 =
      enable_mmu_and_caching 30 sampleEnabled 65536 :=
  enable_already_enabled 30 sampleEnabled 65536 rfl

/-- Claim C3: for every virtual address, `try_virt_to_phys` with translation
disabled returns `MMUDisabled` and performs only the SCTLR read (no `AT`
instruction, no PAR read). -/
theorem translate_disabled (s : HWState) (v : Nat)
    (h : is_enabled s = false) :
    try_virt_to_phys s v =
      (Except.error TranslationError.MMUDisabled, [HWEvent.readSCTLR]) := by
  simp [try_virt_to_phys, h]

/-- Witness for C3 at the maximum representable address. -/
theorem translate_disabled_witness :
    try_virt_to_phys sampleDisabled (2 ^ 64 - 1) =
      (Except.error TranslationError.MMUDisabled, [HWEvent.readSCTLR]) :=
  translate_disabled sampleDisabled (2 ^ 64 - 1) rfl

/-- Claim C4: after enable, with the tables mapping the 64 KiB-aligned
virtual page of `V` to the 64 KiB-aligned physical page of `P`, translation
of `V + k` for any offset `k` below the granule returns exactly `P + k`: the
result is the PAR physical page-frame field shifted left 12, OR-ed with the
input's low-order page-offset bits, so the offset is preserved verbatim. -/
theorem translate_mapped (s : HWState) (V P k : Nat)
    (hen : is_enabled s = true)
    (hV : V % Granule64KiB_SIZE = 0)
    (hP : P % Granule64KiB_SIZE = 0)
    (hVtop : V + Granule64KiB_SIZE ≤ 2 ^ 64)
    (hPtop : P + Granule64KiB_SIZE ≤ 2 ^ 48)
    (hk : k < Granule64KiB_SIZE)
    (hmap : lookupPage s.tables (V / Granule64KiB_SIZE) =
      some (P / Granule64KiB_SIZE)) :
    (try_virt_to_phys s (V + k)).1 = Except.ok (P + k) := by
  have hG : Granule64KiB_SIZE = 65536 := rfl
  rw [hG] at hV hP hVtop hPtop hk hmap
  have h64 : (2 : Nat) ^ 64 = 18446744073709551616 := by norm_num
  rw [h64] at hVtop
  have haddr : (V + k) % 2 ^ 64 = V + k := by
    rw [h64]; exact Nat.mod_eq_of_lt (by omega)
  have hdiv : (V + k) / 65536 = V / 65536 := by omega
  have hmod : (V + k) % 65536 = k := by omega
  simp only [try_virt_to_phys, hen, Bool.not_true, Bool.false_eq_true, if_false,
    haddr, parOfAT, hG, hdiv, hmap, Option.map_some, hmod]
  simp only [Option.map_some']
  rw [shiftLeft_or_low]
  exact congrArg Except.ok (by omega)

/-- Witness for C4: virtual page 1 maps to physical page 2, offset 4103. -/
theorem translate_mapped_witness :
    (try_virt_to_phys sampleEnabled (65536 + 4103)).1 =
      Except.ok (131072 + 4103) :=
  translate_mapped sampleEnabled 65536 131072 4103 rfl rfl rfl (by decide)
    (by decide) (by decide) rfl

/-- Claim C5 counterexample: when the 64 KiB granule is unsupported, `enable`
fails with the `Other` variant carrying the descriptive string — the very
variant the claim reserves for other future failures — not with a distinct
`HardwareUnsupported` variant (no such variant is constructed by the code). -/
theorem enable_granule_unsupported_counterexample :
    (enable_mmu_and_caching 30 sampleNoGranule 65536).1 =
      Except.error
        (MMUEnableError.Other "Translation granule not supported in HW") :=
  rfl

/-- Claim C5 (amended): when the hardware feature-identification register
reports the 64 KiB granule as unsupported, `enable` fails with
`Other("Translation granule not supported in HW")` and takes no further
action: no configuration register is written and the state is unchanged. -/
theorem enable_granule_unsupported (sizeShift : Nat) (s : HWState) (base : Nat)
    (hen : is_enabled s = false) (hg : s.tgran64_supported = false) :
    enable_mmu_and_caching sizeShift s base =
      (Except.error
          (MMUEnableError.Other "Translation granule not supported in HW"),
        s, [HWEvent.readSCTLR, HWEvent.readIDAA64MMFR0]) := by
  simp [enable_mmu_and_caching, hen, hg]

/-- Witness for the amended C5 on a concrete granule-less state. -/
theorem enable_granule_unsupported_witness :
    enable_mmu_and_caching 30 sampleNoGranule 65536 =
      (Except.error
          (MMUEnableError.Other "Translation granule not supported in HW"),
        sampleNoGranule, [HWEvent.readSCTLR, HWEvent.readIDAA64MMFR0]) :=
  enable_granule_unsupported 30 sampleNoGranule 65536 rfl rfl

/-- Claim C6: the address-space sanity checks succeed exactly when the size is
a multiple of 512 MiB and at most `2 ^ 48`. -/
theorem sanity_checks_iff (S : Nat) :
    arch_address_space_size_sanity_checks S = true ↔
      (S % (512 * 1024 * 1024) = 0 ∧ S ≤ 2 ^ 48) := by
  simp [arch_address_space_size_sanity_checks, Granule512MiB_SIZE,
    Nat.shiftLeft_eq]

/-- Claim C7: `configure_translation_control` sets T0SZ to
`64 - SIZE_SHIFT` and disables TTBR1 walks in the same write; for an
address-space size of `2 ^ 30` bytes the shift is 30, so T0SZ is 34. -/
theorem tcr_t0sz_and_epd1 (sizeShift : Nat) (s : HWState) :
    (configure_translation_control sizeShift s).tcr_el1.t0sz = 64 - sizeShift ∧
    (configure_translation_control sizeShift s).tcr_el1.epd1 =
      TCR_EL1_EPD1_DisableTTBR1Walks ∧
    addressSpaceSizeShift (2 ^ 30) = 30 ∧
    64 - addressSpaceSizeShift (2 ^ 30) = 34 := by
  have hlog : addressSpaceSizeShift (2 ^ 30) = 30 := by
    rw [addressSpaceSizeShift, Nat.log2_eq_log_two]
    exact Nat.log_pow (by norm_num) 30
  exact ⟨rfl, rfl, hlog, by rw [hlog]⟩

/-- Claim C8: the MAIR indices are the fixed constants 0 (device) and 1
(normal), and a successful `enable` writes MAIR with exactly the two fixed
attribute entries (normal write-back outer/inner at attribute 1, device
nGnRE at attribute 0), independent of the configured address-space size. -/
theorem mair_fixed (sizeShift : Nat) (s : HWState) (base : Nat)
    (h : (enable_mmu_and_caching sizeShift s base).1 = Except.ok ()) :
    mair.DEVICE = 0 ∧ mair.NORMAL = 1 ∧
    (enable_mmu_and_caching sizeShift s base).2.1.mair_el1 =
      MAIR_EL1_Attr1_Normal_Outer_WriteBack_NonTransient_ReadWriteAlloc |||
      MAIR_EL1_Attr1_Normal_Inner_WriteBack_NonTransient_ReadWriteAlloc |||
      MAIR_EL1_Attr0_Device_nonGathering_nonReordering_EarlyWriteAck := by
  refine ⟨rfl, rfl, ?_⟩
  cases he : is_enabled s with
  | true => simp [enable_mmu_and_caching, he] at h
  | false =>
    cases hg : s.tgran64_supported with
    | false => simp [enable_mmu_and_caching, he, hg] at h
    | true =>
      simp only [enable_mmu_and_caching, he, hg, Bool.not_true,
        Bool.false_eq_true, if_false]
      rfl

/-- Witness for C8 on a concrete pre-enable state. -/
theorem mair_fixed_witness :
    mair.DEVICE = 0 ∧ mair.NORMAL = 1 ∧
    (enable_mmu_and_caching 30 sampleDisabled 65536).2.1.mair_el1 =
      MAIR_EL1_Attr1_Normal_Outer_WriteBack_NonTransient_ReadWriteAlloc |||
      MAIR_EL1_Attr1_Normal_Inner_WriteBack_NonTransient_ReadWriteAlloc |||
      MAIR_EL1_Attr0_Device_nonGathering_nonReordering_EarlyWriteAck :=
  mair_fixed 30 sampleDisabled 65536 rfl

/-- Claim C9: every successful translation returns the PAR physical-address
field shifted left by 12 OR-ed with the input's low 12 bits, so the result is
congruent to the input modulo `2 ^ 12` (4096), not modulo the 64 KiB
granule. -/
theorem translate_low_bits (s : HWState) (v p : Nat) (hv : v < 2 ^ 64)
    (h : (try_virt_to_phys s v).1 = Except.ok p) :
    p % 2 ^ 12 = v % 2 ^ 12 ∧
    ∃ pa, parOfAT s.tables v = some pa ∧
      p = (pa <<< 12) ||| (v &&& 0xFFF) := by
  have hm : v % 2 ^ 64 = v := Nat.mod_eq_of_lt hv
  cases hen : is_enabled s with
  | false => simp [try_virt_to_phys, hen] at h
  | true =>
    rcases hpa : parOfAT s.tables v with _ | pa
    · simp only [try_virt_to_phys, hen, Bool.not_true, Bool.false_eq_true,
        if_false, hm, hpa] at h
      exact Except.noConfusion h
    · simp only [try_virt_to_phys, hen, Bool.not_true, Bool.false_eq_true,
        if_false, hm, hpa, Except.ok.injEq] at h
      subst h
      refine ⟨?_, pa, rfl, rfl⟩
      rw [shiftLeft_or_low]
      omega

/-- Witness for C9 at a concrete successful translation. -/
theorem translate_low_bits_witness :
    (135175 : Nat) % 2 ^ 12 = (69639 : Nat) % 2 ^ 12 ∧
    ∃ pa, parOfAT sampleEnabled.tables 69639 = some pa ∧
      (135175 : Nat) = (pa <<< 12) ||| ((69639 : Nat) &&& 0xFFF) :=
  translate_low_bits sampleEnabled 69639 135175 (by decide) rfl

/-- Claim C10: enablement is determined solely by the SCTLR translation-enable
bit at the moment of the call: `is_enabled` returns exactly that bit, `enable`
returns `AlreadyEnabled` exactly when the bit is set, and `try_virt_to_phys`
returns `MMUDisabled` exactly when the bit is clear. -/
theorem enabled_solely_from_sctlr (sizeShift : Nat) (s : HWState)
    (base v : Nat) :
    is_enabled s = s.sctlr_m ∧
    ((enable_mmu_and_caching sizeShift s base).1 =
        Except.error MMUEnableError.AlreadyEnabled ↔ s.sctlr_m = true) ∧
    ((try_virt_to_phys s v).1 = Except.error TranslationError.MMUDisabled ↔
        s.sctlr_m = false) := by
  cases hm : s.sctlr_m with
  | false =>
    refine ⟨by simp [is_enabled, hm], ?_, ?_⟩
    · by_cases hg : s.tgran64_supported = true <;>
        simp [enable_mmu_and_caching, is_enabled, hm, hg]
    · simp [try_virt_to_phys, is_enabled, hm]
  | true =>
    refine ⟨by simp [is_enabled, hm],
      by simp [enable_mmu_and_caching, is_enabled, hm], ?_⟩
    rcases hpa : parOfAT s.tables (v % 2 ^ 64) with _ | pa <;>
      simp only [try_virt_to_phys, is_enabled, hm, Bool.not_true,
        Bool.false_eq_true, if_false, hpa] <;> simp

end MMUDriver
